import Mathlib

/-
Verification of the retrieval-augmented news chatbot backend.

The development shallowly embeds the core of the repository:
  * the category-aware similarity search of
    src/services/NewsIngestionService.js (searchSimilar) and the optimized
    variant of server.js;
  * the embedding gateway (generateEmbeddings) in both its plain and its
    batched/cached optimized form;
  * the Redis-backed session store (createSession, addMessage,
    getSessionHistory, resetSession, sessionExists) of the optimized server;
  * the two chat orchestrators (ChatService.processQuery in its basic and
    optimized variants) together with generateResponseWithTimeout and
    storeMessagesAsync.

External collaborators (the Qdrant vector index, the Jina embedding
provider, the Gemini generation provider, Redis) are modelled as oracles:
functions supplying the outcome of each outbound call.  Similarity scores
are rationals; wall-clock time is abstracted (a generation attempt that
would exceed the 10 s ceiling is an attempt whose outcome is a timeout
error).
-/

namespace NewsBot

/-- Payload stored with every vector point, as built by ingestion
(title, content, url, publishedAt, source, category). -/
structure Payload where
  title : String
  content : String
  url : String
  publishedAt : String
  source : String
  category : String
deriving DecidableEq, Repr

/-- A scored hit returned by the vector index: point id, similarity score
and the stored payload. -/
structure Hit where
  id : Nat
  score : Rat
  payload : Payload
deriving DecidableEq, Repr

/-- The ephemeral retrieval result returned by searchSimilar:
`{ score: result.score, ...result.payload }` (the id is dropped). -/
structure RetrievalResult where
  score : Rat
  title : String
  content : String
  url : String
  publishedAt : String
  source : String
  category : String
deriving DecidableEq, Repr

/-- The spread `{ score, ...payload }` performed on each hit. -/
def Hit.toResult (h : Hit) : RetrievalResult :=
  ⟨h.score, h.payload.title, h.payload.content, h.payload.url,
   h.payload.publishedAt, h.payload.source, h.payload.category⟩

/-- JavaScript `s.toLowerCase()` (the keywords scanned for are ASCII). -/
def jsToLower (s : String) : String :=
  ⟨s.data.map Char.toLower⟩

/-- JavaScript `s.toUpperCase()` (applied to the ASCII category names). -/
def jsToUpper (s : String) : String :=
  ⟨s.data.map Char.toUpper⟩

/-- JavaScript `haystack.includes(needle)`: substring containment. -/
def strContains (haystack needle : String) : Bool :=
  (List.range (haystack.data.length + 1)).any fun i =>
    needle.data.isPrefixOf (haystack.data.drop i)

/-- The fixed category → keyword table of src/utils/rssSources.js
(identical to the inline table of the basic server variant); iteration
order is the JavaScript object insertion order. -/
def categoryKeywords : List (String × List String) :=
  [("sports", ["sport", "sports", "football", "basketball", "baseball",
               "soccer", "tennis", "golf", "hockey", "olympics", "nfl",
               "nba", "mlb", "espn"]),
   ("technology", ["tech", "technology", "ai", "artificial intelligence",
                   "computer", "software", "app", "digital"]),
   ("politics", ["politics", "political", "government", "election",
                 "president", "congress", "senate"]),
   ("business", ["business", "finance", "economy", "stock", "market",
                 "company", "corporate"]),
   ("crypto", ["crypto", "cryptocurrency", "bitcoin", "blockchain",
               "ethereum"]),
   ("world", ["world", "international", "global", "country", "nation"])]

/-- Classification of a query into at most one target category: lower-case
the query, scan the keyword table in order, first matching category wins. -/
def detectCategory (query : String) : Option String :=
  let queryLower := jsToLower query
  (categoryKeywords.find? fun p =>
    p.2.any fun keyword => strContains queryLower keyword).map (·.1)

/-- Failure of an outbound vector-index call. -/
inductive IndexErr
  | unreachable
deriving DecidableEq, Repr

/-- Oracle for the vector index, fixed per query embedding: arguments are
the optional category filter, the requested candidate limit and the
optional score threshold, the result is either the ranked hit list or a
transport error. -/
structure VectorIndex where
  search : Option String → Nat → Option Rat → Except IndexErr (List Hit)

/-- NewsIngestionService.searchSimilar before the final payload spread:
category-filtered search for 2×limit candidates, supplemented by an
unfiltered search for limit candidates when the filtered search yields
fewer than limit hits (appending only hits with fresh ids), otherwise a
single unfiltered search; every index error is rethrown. -/
def searchSimilarHits (idx : VectorIndex) (query : String) (limit : Nat) :
    Except IndexErr (List Hit) :=
  match detectCategory query with
  | some cat =>
    match idx.search (some cat) (limit * 2) none with
    | Except.error e => Except.error e
    | Except.ok filtered =>
      if filtered.length < limit then
        match idx.search none limit none with
        | Except.error e => Except.error e
        | Except.ok generalSearch =>
          let existingIds := filtered.map Hit.id
          let supplementalResults :=
            generalSearch.filter fun r => r.id ∉ existingIds
          Except.ok ((filtered ++ supplementalResults).take limit)
      else
        Except.ok (filtered.take limit)
  | none => idx.search none limit none

/-- NewsIngestionService.searchSimilar: the ranked hits mapped through the
payload spread. -/
def searchSimilar (idx : VectorIndex) (query : String) (limit : Nat) :
    Except IndexErr (List RetrievalResult) :=
  match searchSimilarHits idx query limit with
  | Except.error e => Except.error e
  | Except.ok hits => Except.ok (hits.map Hit.toResult)

/-- The score_threshold: 0.2 constant of the optimized server variant. -/
def scoreThreshold : Rat := 2 / 10

/-- The optimized server variant of searchSimilar: a single unfiltered
search with a score threshold; a failing index call is caught and an empty
list is returned instead of an error. -/
def searchSimilarOpt (idx : VectorIndex) (query : String) (limit : Nat) :
    List RetrievalResult :=
  match idx.search none limit (some scoreThreshold) with
  | Except.ok hits => hits.map Hit.toResult
  | Except.error _ => []

/-- Hits sorted by non-increasing similarity score. -/
def SortedHits (l : List Hit) : Prop :=
  l.Pairwise fun a b => b.score ≤ a.score

/-- Retrieval results sorted by non-increasing similarity score. -/
def SortedResults (l : List RetrievalResult) : Prop :=
  l.Pairwise fun a b => b.score ≤ a.score

instance : DecidablePred SortedResults := fun l =>
  inferInstanceAs (Decidable (l.Pairwise _))

instance : DecidablePred SortedHits := fun l =>
  inferInstanceAs (Decidable (l.Pairwise _))

/-- A well-behaved vector index: every successful search returns at most
the requested number of hits, ranked by non-increasing score, with
pairwise distinct ids, and a category-filtered search only returns hits of
that category. -/
structure WellBehaved (idx : VectorIndex) : Prop where
  len_le : ∀ f lim thr hits, idx.search f lim thr = Except.ok hits →
    hits.length ≤ lim
  sorted : ∀ f lim thr hits, idx.search f lim thr = Except.ok hits →
    SortedHits hits
  nodupIds : ∀ f lim thr hits, idx.search f lim thr = Except.ok hits →
    (hits.map Hit.id).Nodup
  catOnly : ∀ cat lim thr hits,
    idx.search (some cat) lim thr = Except.ok hits →
    ∀ h ∈ hits, h.payload.category = cat

/-- Number of distinct point ids occurring in a hit list. -/
def distinctIdCount (l : List Hit) : Nat :=
  ((l.map Hit.id).dedup).length

/-- Failure of an outbound embedding-provider call (network, auth, rate
limit). -/
inductive EmbErr
  | network
deriving DecidableEq, Repr

/-- An embedding vector (entries abstracted as rationals). -/
abbrev Vec := List Rat

/-- The mock embedding built on provider failure:
`Array(768).fill(0).map(() => Math.random())`; the random source is an
explicit parameter giving the value drawn at each coordinate. -/
def mockVec (rand : Nat → Rat) : Vec :=
  (List.range 768).map rand

/-- NewsIngestionService.generateEmbeddings: one provider call with the
whole text list; on success the provider vectors are returned unchanged,
on any provider error a fresh mock vector per input text is returned and
the error is not propagated. -/
def generateEmbeddings (provider : List String → Except EmbErr (List Vec))
    (rand : Nat → Nat → Rat) (texts : List String) : List Vec :=
  match provider texts with
  | Except.ok vectors => vectors
  | Except.error _ => (List.range texts.length).map fun i => mockVec (rand i)

/-- The batch loop of the optimized generateEmbeddings: texts are sent in
batches of 10 and the per-batch vectors concatenated; the first failing
batch aborts the whole loop with its error. -/
def embedBatches (provider : List String → Except EmbErr (List Vec)) :
    List String → Except EmbErr (List Vec)
  | [] => Except.ok []
  | t :: ts =>
    match provider (t :: ts.take 9) with
    | Except.error e => Except.error e
    | Except.ok vectors =>
      match embedBatches provider (ts.drop 9) with
      | Except.error e => Except.error e
      | Except.ok rest => Except.ok (vectors ++ rest)
termination_by l => l.length
decreasing_by
  simp only [List.length_drop, List.length_cons]
  omega

/-- The cache key of the optimized generateEmbeddings:
`texts.join('|||')`. -/
def cacheKeyOf (texts : List String) : String :=
  String.intercalate ("|||") texts

/-- The optimized generateEmbeddings with its embedding cache (an
insertion-ordered association list of at most 200 entries): a cache hit
returns the cached vectors; otherwise the batch loop runs, a success is
cached (evicting the oldest entry when the cache is full) and a failure
falls back to one mock vector per input text, leaving the cache
unchanged.  Returns the vectors together with the updated cache. -/
def generateEmbeddingsOpt (provider : List String → Except EmbErr (List Vec))
    (rand : Nat → Nat → Rat) (cache : List (String × List Vec))
    (texts : List String) : List Vec × List (String × List Vec) :=
  match cache.lookup (cacheKeyOf texts) with
  | some vectors => (vectors, cache)
  | none =>
    match embedBatches provider texts with
    | Except.ok embeddings =>
      let cacheTrimmed := if 200 ≤ cache.length then cache.drop 1 else cache
      (embeddings, cacheTrimmed ++ [(cacheKeyOf texts, embeddings)])
    | Except.error _ =>
      ((List.range texts.length).map fun i => mockVec (rand i), cache)

/-- A chat message as stored in Redis (JSON parse/stringify is the
identity of this record). -/
structure Msg where
  id : Nat
  role : String
  content : String
  timestamp : String
deriving DecidableEq, Repr

/-- The session metadata hash: `created_at` (absent when the hash was
created implicitly by an increment on a missing key) and the
`message_count` field. -/
structure SessionMeta where
  created_at : Option String
  message_count : Int
deriving DecidableEq, Repr

/-- The durable store backing SessionService: per-session metadata hash,
per-session message list (newest first; a missing key is the empty list)
and the TTLs of both keys. -/
structure Store where
  sessions : String → Option SessionMeta
  messages : String → List Msg
  sessionTTL : String → Option Nat
  messagesTTL : String → Option Nat

/-- The empty store. -/
def emptyStore : Store :=
  ⟨fun _ => none, fun _ => [], fun _ => none, fun _ => none⟩

/-- JavaScript `s.substring(0, n)` (for the truncations performed by the
optimized variant). -/
def jsSubstring (s : String) (n : Nat) : String :=
  ⟨s.data.take n⟩

/-- Redis LRANGE on a list key: negative indexes count from the end, the
normalized range is clamped to the list and an inverted range yields the
empty list. -/
def lRange (l : List Msg) (start stop : Int) : List Msg :=
  let n : Int := (l.length : Int)
  let s0 : Int := if start < 0 then n + start else start
  let e0 : Int := if stop < 0 then n + stop else stop
  let s : Int := max s0 0
  let e : Int := min e0 (n - 1)
  if s ≤ e then (l.drop s.toNat).take (e - s + 1).toNat else []

/-- SessionService.createSession of the optimized server: initialize the
metadata hash with `created_at` and a zero counter and set a 24 h TTL.
The fresh session id and the current time are oracle inputs. -/
def createSession (st : Store) (sid : String) (now : String) : Store :=
  { st with
    sessions := fun k =>
      if k = sid then some ⟨some now, 0⟩ else st.sessions k,
    sessionTTL := fun k =>
      if k = sid then some 86400 else st.sessionTTL k }

/-- SessionService.addMessage of the optimized server: build the message
with the content truncated to its first 2000 characters, push it at the
head of the message list, increment the counter (creating the hash if the
session is missing, as HINCRBY does) and refresh both TTLs.  Returns the
stored message and the updated store. -/
def addMessage (st : Store) (sid : String) (mid : Nat)
    (role content now : String) : Msg × Store :=
  let message : Msg := ⟨mid, role, jsSubstring content 2000, now⟩
  (message,
   { st with
     messages := fun k =>
       if k = sid then message :: st.messages k else st.messages k,
     sessions := fun k =>
       if k = sid then
         match st.sessions k with
         | some meta => some { meta with message_count := meta.message_count + 1 }
         | none => some ⟨none, 1⟩
       else st.sessions k,
     messagesTTL := fun k =>
       if k = sid then some 86400 else st.messagesTTL k,
     sessionTTL := fun k =>
       if k = sid then some 86400 else st.sessionTTL k })

/-- SessionService.getSessionHistory: read the first `limit` entries of
the newest-first message list (LRANGE 0 (limit-1)) and reverse them into
chronological order. -/
def getSessionHistory (st : Store) (sid : String) (limit : Int) : List Msg :=
  (lRange (st.messages sid) 0 (limit - 1)).reverse

/-- SessionService.resetSession of the optimized server: delete the
message list (key and TTL gone) and set the counter field back to 0
(creating the hash if the session is missing, as HSET does); the session
hash, its `created_at` field and its TTL are otherwise untouched.
Returns `true` and the updated store. -/
def resetSession (st : Store) (sid : String) : Bool × Store :=
  (true,
   { st with
     messages := fun k => if k = sid then [] else st.messages k,
     messagesTTL := fun k => if k = sid then none else st.messagesTTL k,
     sessions := fun k =>
       if k = sid then
         match st.sessions k with
         | some meta => some { meta with message_count := 0 }
         | none => some ⟨none, 0⟩
       else st.sessions k })

/-- SessionService.sessionExists: EXISTS on the metadata hash. -/
def sessionExists (st : Store) (sid : String) : Bool :=
  (st.sessions sid).isSome

/-- Outcome of one generation attempt: the Gemini call either resolves
with text, rejects, or loses the 10 s race (timeout); the final
`failedAfterRetries` wraps the error of the exhausted last attempt. -/
inductive GenErr
  | timeout
  | apiFailure
  | failedAfterRetries (e : GenErr)
deriving DecidableEq, Repr

/-- Failure of an outbound session-store call. -/
inductive StoreErr
  | unavailable
deriving DecidableEq, Repr

/-- Errors surfaced by processQuery. -/
inductive PQErr
  | generationFailed
  | store (e : StoreErr)
deriving DecidableEq, Repr

/-- A source reference of the basic chat service response. -/
structure SourceRef where
  title : String
  url : String
  source : String
  category : String
deriving DecidableEq, Repr

/-- A source reference of the optimized chat service response (with the
rounded score). -/
structure OptSourceRef where
  title : String
  url : String
  source : String
  score : Rat
deriving DecidableEq, Repr

/-- The basic chat service response. -/
structure ChatResponse where
  role : String
  content : String
  sources : List SourceRef
deriving DecidableEq, Repr

/-- The optimized chat service response (processingTime, a wall-clock
measurement, is abstracted away). -/
structure OptChatResponse where
  role : String
  content : String
  sources : List OptSourceRef
deriving DecidableEq, Repr

/-- The fixed polite fallback sent when retrieval finds no articles
(basic chat service). -/
def noMatchResponse : String :=
  "I don\x27t have any recent news articles that match your query. Please try asking about different topics or check back later as I regularly update my news database."

/-- JavaScript `news.category?.toUpperCase() || 'NEWS'` (an empty —
falsy — category also yields NEWS). -/
def categoryLabel (category : String) : String :=
  if jsToUpper category = "" then "NEWS" else jsToUpper category

/-- One article block of the basic prompt (the locale date rendering of
publishedAt is abstracted to the stored string). -/
def articleBlock (index : Nat) (news : RetrievalResult) : String :=
  "Article " ++ toString (index + 1) ++ " [" ++ news.source ++ " - " ++
    categoryLabel news.category ++ " - " ++ news.publishedAt ++ "]:\n" ++
    "Title: " ++ news.title ++ "\n" ++
    "Content: " ++ news.content

/-- The news context of the basic prompt. -/
def newsContextBasic (relevantNews : List RetrievalResult) : String :=
  String.intercalate ("\n\n")
    (relevantNews.enum.map fun p => articleBlock p.1 p.2)

/-- The conversation context of the basic prompt: last five messages. -/
def historyBasic (history : List Msg) : String :=
  String.intercalate ("\n")
    ((history.drop (history.length - 5)).map fun m =>
      m.role ++ ": " ++ m.content)

/-- The sports-term list the basic chat service scans the query for. -/
def sportsQueryTerms : List String :=
  ["sport", "sports", "football", "basketball", "baseball", "soccer",
   "tennis", "golf", "hockey", "olympics", "nfl", "nba", "mlb"]

/-- The full prompt of the basic chat service. -/
def promptBasic (relevantNews : List RetrievalResult) (history : List Msg)
    (userMessage : String) : String :=
  let isSportsQuery :=
    sportsQueryTerms.any fun t => strContains (jsToLower userMessage) t
  "\nYou are a helpful news assistant. Answer the user\x27s question based on the following recent news articles and conversation history.\n\nRecent News Articles (" ++
    toString relevantNews.length ++ " articles found):\n" ++
    newsContextBasic relevantNews ++
    "\n\nRecent Conversation:\n" ++ historyBasic history ++
    "\n\nUser Question: " ++ userMessage ++
    "\n\nInstructions:\n- Provide accurate information based ONLY on the news articles provided above\n- If you found relevant articles, use them to answer the question thoroughly\n- " ++
    (if isSportsQuery then
      "Focus on sports-related content and provide detailed sports information"
     else "Provide comprehensive coverage of the topic") ++
    "\n- Be specific and cite information from the articles\n- If the articles don\x27t fully answer the question, mention what information is available\n- Include relevant details like dates, sources, and key facts\n- Be engaging and informative\n- Always mention the category of news (e.g., SPORTS, TECH, POLITICS) when relevant\n\nAnswer:"

/-- ChatService.processQuery of the basic variant, parameterized by the
outcomes of its outbound calls: `relevantNews` is the retrieval result for
the message, `history` the fetched session history, `gen` the generation
provider and `addMsg role content` the outcome of persisting one message.
When retrieval is empty the fixed fallback is persisted and returned
without consulting the generation provider (store errors on that path
propagate uncaught); otherwise generation and both persistence calls run
inside one try block whose catch rethrows a generation failure. -/
def processQueryBasic (relevantNews : List RetrievalResult)
    (history : List Msg) (gen : String → Except GenErr String)
    (addMsg : String → String → Except StoreErr Unit)
    (userMessage : String) : Except PQErr ChatResponse :=
  if relevantNews.length = 0 then
    match addMsg ("user") userMessage with
    | Except.error e => Except.error (PQErr.store e)
    | Except.ok _ =>
      match addMsg ("bot") noMatchResponse with
      | Except.error e => Except.error (PQErr.store e)
      | Except.ok _ => Except.ok ⟨"bot", noMatchResponse, []⟩
  else
    let prompt := promptBasic relevantNews history userMessage
    let attempt : Except Unit ChatResponse :=
      match gen prompt with
      | Except.error _ => Except.error ()
      | Except.ok response =>
        match addMsg ("user") userMessage with
        | Except.error _ => Except.error ()
        | Except.ok _ =>
          match addMsg ("bot") response with
          | Except.error _ => Except.error ()
          | Except.ok _ =>
            Except.ok ⟨"bot", response,
              relevantNews.map fun news =>
                ⟨news.title, news.url, news.source, news.category⟩⟩
    match attempt with
    | Except.ok r => Except.ok r
    | Except.error _ => Except.error PQErr.generationFailed

/-- The optimized news context: a fixed narrative when retrieval is empty,
otherwise attributed blocks with the content truncated to 300
characters. -/
def buildOptimizedNewsContext (relevantNews : List RetrievalResult) :
    String :=
  if relevantNews.length = 0 then "No recent news found."
  else
    String.intercalate ("\n\n")
      (relevantNews.map fun news =>
        "[" ++ news.source ++ " - " ++ news.publishedAt ++ "]\n" ++
          news.title ++ "\n" ++ jsSubstring news.content 300 ++ "...")

/-- The optimized conversation context: last three messages, each
truncated to 150 characters. -/
def buildOptimizedHistory (history : List Msg) : String :=
  if history.length = 0 then "No conversation history."
  else
    String.intercalate ("\n")
      ((history.drop (history.length - 3)).map fun m =>
        m.role ++ ": " ++ jsSubstring m.content 150 ++ "...")

/-- The optimized prompt template. -/
def buildOptimizedPrompt (newsContext conversationHistory userMessage :
    String) : String :=
  "You are a concise news assistant. Answer based on the provided articles and context.\n\nRecent News:\n" ++
    newsContext ++ "\n\nContext:\n" ++ conversationHistory ++
    "\n\nUser: " ++ userMessage ++
    "\n\nProvide a focused, accurate answer (max 200 words):"

/-- JavaScript `Math.round(score * 100) / 100`. -/
def roundScore (q : Rat) : Rat :=
  (⌊q * 100 + 1 / 2⌋ : Rat) / 100

/-- extractOptimizedSources: title, url, source and the rounded score of
each retrieved article. -/
def extractOptimizedSources (relevantNews : List RetrievalResult) :
    List OptSourceRef :=
  relevantNews.map fun news =>
    ⟨news.title, news.url, news.source, roundScore news.score⟩

/-- The hard per-attempt ceiling of the Gemini race, in milliseconds. -/
def generationTimeoutMs : Nat := 10000

/-- The backoff slept after a failed attempt:
`setTimeout(..., 1000 * attempt)`. -/
def backoffDelayMs (attempt : Nat) : Nat := 1000 * attempt

/-- The default retry budget of generateResponseWithTimeout. -/
def defaultMaxRetries : Nat := 2

/-- The attempt loop of generateResponseWithTimeout: run attempt `k`, on
success return its text, on failure rethrow once the budget is exhausted
(wrapping the last error) and otherwise back off and retry.  The zero
budget case never arises from the source (its loop body would not run). -/
def attemptLoop (attempt : Nat → Except GenErr String) (k : Nat) :
    Nat → Except GenErr String
  | 0 => Except.error (GenErr.failedAfterRetries GenErr.timeout)
  | remaining + 1 =>
    match attempt k with
    | Except.ok text => Except.ok text
    | Except.error e =>
      if remaining = 0 then Except.error (GenErr.failedAfterRetries e)
      else attemptLoop attempt (k + 1) remaining

/-- generateResponseWithTimeout: up to `maxRetries` attempts (the source
default is 2), starting at attempt 1; each attempt races the provider
against the 10 s timeout, a lost race being a timeout-failed attempt. -/
def generateResponseWithTimeout (attempt : Nat → Except GenErr String)
    (maxRetries : Nat) : Except GenErr String :=
  attemptLoop attempt 1 maxRetries

/-- storeMessagesAsync: both persistence calls are awaited together and
any failure is only logged; the returned value is the logged error, which
the caller discards. -/
def storeMessagesAsync (persistUser persistBot : Except StoreErr Unit) :
    Option StoreErr :=
  match persistUser with
  | Except.error e => some e
  | Except.ok _ =>
    match persistBot with
    | Except.error e => some e
    | Except.ok _ => none

/-- ChatService.processQuery of the optimized variant: build the
optimized context (empty retrieval yields the fixed narrative inside the
prompt), call the generation provider through the timeout/retry wrapper
and, only on success, fire off the non-blocking message persistence whose
failure is merely logged.  The first component is the value returned to
the caller; the second is the swallowed persistence error, if any. -/
def processQueryOpt (relevantNews : List RetrievalResult)
    (history : List Msg) (genAttempt : String → Nat → Except GenErr String)
    (persistUser persistBot : Except StoreErr Unit)
    (userMessage : String) :
    Except PQErr OptChatResponse × Option StoreErr :=
  let newsContext := buildOptimizedNewsContext relevantNews
  let conversationHistory := buildOptimizedHistory history
  let prompt := buildOptimizedPrompt newsContext conversationHistory
    userMessage
  match generateResponseWithTimeout (genAttempt prompt) defaultMaxRetries with
  | Except.error _ => (Except.error PQErr.generationFailed, none)
  | Except.ok response =>
    (Except.ok ⟨"bot", response, extractOptimizedSources relevantNews⟩,
     storeMessagesAsync persistUser persistBot)

/-- A concrete sports article hit (modest similarity to the demo query). -/
def hitS : Hit :=
  ⟨1, 3 / 10,
   ⟨"NBA finals recap", "The finals went to seven games.",
    "https://espn.example/nba", "2024-01-01", "espn.com", "sports"⟩⟩

/-- A concrete world article hit (high similarity to the demo query). -/
def hitW : Hit :=
  ⟨2, 9 / 10,
   ⟨"Summit concludes", "Leaders met for a global summit.",
    "https://world.example/summit", "2024-01-02", "bbc.co.uk", "world"⟩⟩

/-- The full ranking the demo index holds for each filter: the world
article outscores the sports article. -/
def demoRanked : Option String → List Hit
  | none => [hitW, hitS]
  | some c => if c = "sports" then [hitS]
      else if c = "world" then [hitW] else []

/-- A two-article in-memory index: every search returns the ranking for
its filter truncated to the requested limit (exactly what a faithful
nearest-neighbor index does). -/
def demoIdx : VectorIndex :=
  ⟨fun f lim _ => Except.ok ((demoRanked f).take lim)⟩

/-- An unreachable index: every search fails. -/
def failIdx : VectorIndex :=
  ⟨fun _ _ _ => Except.error IndexErr.unreachable⟩

/-- A concrete 768-dimension vector. -/
def zeroVec : Vec := List.replicate 768 0

/-- A healthy embedding provider: one 768-vector per input text. -/
def okProvider : List String → Except EmbErr (List Vec) :=
  fun ts => Except.ok (ts.map fun _ => zeroVec)

/-- A failing embedding provider. -/
def failProvider : List String → Except EmbErr (List Vec) :=
  fun _ => Except.error EmbErr.network

/-- A fixed random source for mock vectors. -/
def demoRand : Nat → Nat → Rat := fun _ _ => 0

/-- The timestamp-like strings used in the demo session. -/
def demoT0 : String := "2024-01-01T00:00:00Z"

/-- A demo store: one session holding a user and a bot message (built
through the store operations themselves). -/
def demoStore : Store :=
  (addMessage
    (addMessage (createSession emptyStore ("s1") demoT0) ("s1") 10
      ("user") ("hi") ("2024-01-01T00:01:00Z")).2
    ("s1") 11 ("bot") ("hello there") ("2024-01-01T00:02:00Z")).2

/-- A 2001-character message content. -/
def longContent : String := ⟨List.replicate 2001 (Char.ofNat 97)⟩

/-- A healthy session store oracle: every persistence call succeeds. -/
def okStore : String → String → Except StoreErr Unit :=
  fun _ _ => Except.ok ()

/-- A failing session store oracle: every persistence call fails. -/
def failStore : String → String → Except StoreErr Unit :=
  fun _ _ => Except.error StoreErr.unavailable

/-- A fixed generation output. -/
def modelText : String := "Here is a summary of the requested news."

/-- A generation provider that always succeeds with the fixed text. -/
def okGen : String → Except GenErr String :=
  fun _ => Except.ok modelText

/-- A per-attempt generation oracle that always succeeds. -/
def okGenAttempt : String → Nat → Except GenErr String :=
  fun _ _ => Except.ok modelText

/-- A per-attempt generation oracle that always times out. -/
def failGenAttempt : String → Nat → Except GenErr String :=
  fun _ _ => Except.error GenErr.timeout

theorem demoRanked_sorted (f : Option String) : SortedHits (demoRanked f) := by
  match f with
  | none =>
    simp only [demoRanked, SortedHits, List.pairwise_cons, List.mem_singleton,
      List.pairwise_singleton, List.not_mem_nil, IsEmpty.forall_iff,
      implies_true, and_true]
    refine ⟨?_, trivial, List.Pairwise.nil⟩
    intro b hb
    subst hb
    norm_num [hitS, hitW]
  | some c =>
    simp only [demoRanked]
    split_ifs <;> simp [SortedHits]

theorem demoRanked_nodup (f : Option String) :
    ((demoRanked f).map Hit.id).Nodup := by
  match f with
  | none => decide
  | some c =>
    simp only [demoRanked]
    split_ifs <;> decide

theorem demoIdx_wellBehaved : WellBehaved demoIdx := by
  constructor
  · intro f lim thr hits h
    simp only [demoIdx] at h
    injection h with h
    exact h ▸ List.length_take_le _ _
  · intro f lim thr hits h
    simp only [demoIdx] at h
    injection h with h
    exact h ▸ (demoRanked_sorted f).sublist (List.take_sublist _ _)
  · intro f lim thr hits h
    simp only [demoIdx] at h
    injection h with h
    subst h
    rw [List.map_take]
    exact (demoRanked_nodup f).sublist (List.take_sublist _ _)
  · intro cat lim thr hits h x hx
    simp only [demoIdx] at h
    injection h with h
    subst h
    have hx2 : x ∈ demoRanked (some cat) := List.take_subset _ _ hx
    simp only [demoRanked] at hx2
    split_ifs at hx2 with h1 h2
    · simp only [List.mem_singleton] at hx2
      subst hx2; subst h1; rfl
    · simp only [List.mem_singleton] at hx2
      subst hx2; subst h2; rfl
    · simp at hx2

theorem sortedResults_map {l : List Hit} (h : SortedHits l) :
    SortedResults (l.map Hit.toResult) := by
  simpa [SortedResults, List.pairwise_map, Hit.toResult] using h

theorem searchSimilarHits_length (idx : VectorIndex) (hW : WellBehaved idx)
    (query : String) (limit : Nat) (hits : List Hit)
    (h : searchSimilarHits idx query limit = Except.ok hits) :
    hits.length ≤ limit := by
  unfold searchSimilarHits at h
  split at h
  case h_1 cat hcat =>
    split at h
    case h_1 => exact Except.noConfusion h
    case h_2 filtered hf =>
      split at h
      · split at h
        case h_1 => exact Except.noConfusion h
        case h_2 generalSearch hg =>
          injection h with h
          exact h ▸ List.length_take_le _ _
      · injection h with h
        exact h ▸ List.length_take_le _ _
  case h_2 hnone => exact hW.len_le none limit none hits h

theorem searchSimilarHits_none (idx : VectorIndex) (query : String)
    (limit : Nat) (h : detectCategory query = none) :
    searchSimilarHits idx query limit = idx.search none limit none := by
  simp only [searchSimilarHits, h]

theorem searchSimilarHits_enough (idx : VectorIndex) (query : String)
    (limit : Nat) (cat : String) (filtered : List Hit)
    (hc : detectCategory query = some cat)
    (hf : idx.search (some cat) (limit * 2) none = Except.ok filtered)
    (hge : ¬ filtered.length < limit) :
    searchSimilarHits idx query limit = Except.ok (filtered.take limit) := by
  simp only [searchSimilarHits, hc, hf, hge, if_false]

theorem searchSimilarHits_merge (idx : VectorIndex) (query : String)
    (limit : Nat) (cat : String) (filtered generalSearch : List Hit)
    (hc : detectCategory query = some cat)
    (hf : idx.search (some cat) (limit * 2) none = Except.ok filtered)
    (hlt : filtered.length < limit)
    (hg : idx.search none limit none = Except.ok generalSearch) :
    searchSimilarHits idx query limit =
      Except.ok ((filtered ++ generalSearch.filter fun r =>
        r.id ∉ filtered.map Hit.id).take limit) := by
  simp only [searchSimilarHits, hc, hf, hlt, if_true, hg]

theorem searchSimilar_eq_map (idx : VectorIndex) (query : String)
    (limit : Nat) (out : List RetrievalResult)
    (hout : searchSimilar idx query limit = Except.ok out) :
    ∃ hits, searchSimilarHits idx query limit = Except.ok hits ∧
      out = hits.map Hit.toResult := by
  unfold searchSimilar at hout
  split at hout
  case h_1 e he => exact Except.noConfusion hout
  case h_2 hits hh =>
    injection hout with hout
    exact ⟨hits, hh, hout.symm⟩

/-- C1: the claim that searchSimilar always returns at most limit results
sorted by non-increasing score fails on the filtered-plus-supplement merge
path; what holds is: the output length is at most limit on every path, and
the output is sorted on the unfiltered path and on the category-filtered
path when the filtered search already supplies at least limit hits. -/
theorem c1_search_bounded_sorted (idx : VectorIndex) (hW : WellBehaved idx)
    (query : String) (limit : Nat) (out : List RetrievalResult)
    (hout : searchSimilar idx query limit = Except.ok out) :
    out.length ≤ limit ∧
    (detectCategory query = none → SortedResults out) ∧
    (∀ cat filtered, detectCategory query = some cat →
      idx.search (some cat) (limit * 2) none = Except.ok filtered →
      limit ≤ filtered.length → SortedResults out) := by
  obtain ⟨hits, hh, hmap⟩ := searchSimilar_eq_map idx query limit out hout
  subst hmap
  refine ⟨?_, ?_, ?_⟩
  · rw [List.length_map]
    exact searchSimilarHits_length idx hW query limit hits hh
  · intro hnone
    rw [searchSimilarHits_none idx query limit hnone] at hh
    exact sortedResults_map (hW.sorted none limit none hits hh)
  · intro cat filtered hc hf hge
    rw [searchSimilarHits_enough idx query limit cat filtered hc hf
      (by omega)] at hh
    injection hh with hh
    subst hh
    exact sortedResults_map
      ((hW.sorted (some cat) (limit * 2) none filtered hf).sublist
        (List.take_sublist _ _))

/-- C1 counterexample: even over a well-behaved two-article index the
merge path is unsorted: the query nba (category sports) at limit 2
returns the sports hit (score 3/10) before the supplemental world hit
(score 9/10). -/
theorem c1_counterexample :
    WellBehaved demoIdx ∧
    searchSimilar demoIdx ("nba") 2 =
      Except.ok [Hit.toResult hitS, Hit.toResult hitW] ∧
    ¬ SortedResults [Hit.toResult hitS, Hit.toResult hitW] := by
  refine ⟨demoIdx_wellBehaved, rfl, ?_⟩
  intro hcon
  rw [SortedResults, List.pairwise_cons] at hcon
  have h := hcon.1 (Hit.toResult hitW) (List.mem_singleton.mpr rfl)
  norm_num [Hit.toResult, hitS, hitW] at h

theorem map_id_filter (p : Nat → Prop) [DecidablePred p] (l : List Hit) :
    (l.filter fun r => decide (p r.id)).map Hit.id =
      (l.map Hit.id).filter fun x => decide (p x) := by
  induction l with
  | nil => rfl
  | cons a tl ih =>
    by_cases h : p a.id <;>
      simp [List.filter_cons, h, ih]

theorem dedup_length_append (A B : List Nat) (hA : A.Nodup) (hB : B.Nodup) :
    ((A ++ B).dedup).length =
      A.length + (B.filter fun x => decide (x ∉ A)).length := by
  have h1 : ((A ++ B).dedup).length = ((A ++ B).toFinset).card :=
    (List.card_toFinset _).symm
  have h2 : (B.filter fun x => decide (x ∉ A)).toFinset =
      B.toFinset \ A.toFinset := by
    ext x
    simp [List.mem_filter]
  have h3 : (B.filter fun x => decide (x ∉ A)).length =
      (B.toFinset \ A.toFinset).card := by
    rw [← h2, List.toFinset_card_of_nodup (hB.filter _)]
  rw [h1, List.toFinset_append, h3, ← List.toFinset_card_of_nodup hA]
  have h4 := Finset.card_sdiff_add_card B.toFinset A.toFinset
  rw [Finset.union_comm] at h4
  omega

/-- C2: when a category query's filtered search (issued for 2×limit
candidates) undershoots limit, a second unfiltered search for limit
candidates is issued and its hits with fresh ids appended; the output has
pairwise-distinct ids and length exactly limit whenever the two searches
together supply at least limit distinct ids. -/
theorem c2_supplement_dedup (idx : VectorIndex) (hW : WellBehaved idx)
    (query : String) (limit : Nat) (cat : String)
    (filtered generalSearch : List Hit)
    (hc : detectCategory query = some cat)
    (hf : idx.search (some cat) (limit * 2) none = Except.ok filtered)
    (hlt : filtered.length < limit)
    (hg : idx.search none limit none = Except.ok generalSearch) :
    searchSimilarHits idx query limit =
      Except.ok ((filtered ++ generalSearch.filter fun r =>
        r.id ∉ filtered.map Hit.id).take limit) ∧
    (((filtered ++ generalSearch.filter fun r =>
        r.id ∉ filtered.map Hit.id).take limit).map Hit.id).Nodup ∧
    (limit ≤ distinctIdCount (filtered ++ generalSearch) →
      ∀ out, searchSimilar idx query limit = Except.ok out →
        out.length = limit) := by
  have hA := hW.nodupIds (some cat) (limit * 2) none filtered hf
  have hB := hW.nodupIds none limit none generalSearch hg
  have hmerge := searchSimilarHits_merge idx query limit cat filtered
    generalSearch hc hf hlt hg
  have hcommute :
      ((generalSearch.filter fun r =>
        r.id ∉ filtered.map Hit.id).map Hit.id) =
      ((generalSearch.map Hit.id).filter fun x =>
        decide (x ∉ filtered.map Hit.id)) :=
    map_id_filter (fun x => x ∉ filtered.map Hit.id) generalSearch
  have hnodup :
      (((filtered ++ generalSearch.filter fun r =>
        r.id ∉ filtered.map Hit.id).take limit).map Hit.id).Nodup := by
    rw [List.map_take]
    refine List.Nodup.sublist (List.take_sublist _ _) ?_
    rw [List.map_append, hcommute]
    refine List.nodup_append.mpr ⟨hA, hB.filter _, ?_⟩
    intro a haF haS
    rcases List.mem_filter.mp haS with ⟨_, hdec⟩
    exact (of_decide_eq_true hdec) haF
  have hlen :
      (filtered ++ generalSearch.filter fun r =>
        r.id ∉ filtered.map Hit.id).length =
      distinctIdCount (filtered ++ generalSearch) := by
    rw [List.length_append, distinctIdCount, List.map_append,
      dedup_length_append _ _ hA hB]
    have := congrArg List.length hcommute
    simp only [List.length_map] at this ⊢
    omega
  refine ⟨hmerge, hnodup, ?_⟩
  intro hcount out hout
  obtain ⟨hits, hh, hmap⟩ := searchSimilar_eq_map idx query limit out hout
  rw [hmerge] at hh
  injection hh with hh
  subst hh hmap
  rw [List.length_map, List.length_take, hlen]
  omega

/-- C2 witness: the demo index with the query nba at limit 2: one sports
hit is supplemented by the world hit, the ids are distinct and the output
length is exactly 2. -/
theorem c2_witness :
    detectCategory ("nba") = some ("sports") ∧
    demoIdx.search (some ("sports")) 4 none = Except.ok [hitS] ∧
    demoIdx.search none 2 none = Except.ok [hitW, hitS] ∧
    2 ≤ distinctIdCount ([hitS] ++ [hitW, hitS]) ∧
    (((([hitS] : List Hit) ++ ([hitW, hitS].filter fun r =>
        r.id ∉ [hitS].map Hit.id)).take 2).map Hit.id).Nodup ∧
    ∀ out, searchSimilar demoIdx ("nba") 2 = Except.ok out →
      out.length = 2 := by
  have h := c2_supplement_dedup demoIdx demoIdx_wellBehaved ("nba") 2
    ("sports") [hitS] [hitW, hitS] rfl rfl (by decide) rfl
  exact ⟨rfl, rfl, rfl, by decide, h.2.1, h.2.2 (by decide)⟩

/-- C1 witness: the amended theorem applied to the demo index on an
uncategorized query. -/
theorem c1_witness :
    searchSimilar demoIdx ("hello") 2 =
      Except.ok [Hit.toResult hitW, Hit.toResult hitS] ∧
    [Hit.toResult hitW, Hit.toResult hitS].length ≤ 2 ∧
    SortedResults [Hit.toResult hitW, Hit.toResult hitS] := by
  have h := c1_search_bounded_sorted demoIdx demoIdx_wellBehaved ("hello") 2
    [Hit.toResult hitW, Hit.toResult hitS] rfl
  exact ⟨rfl, h.1, h.2.1 rfl⟩

/-- C3: searchSimilar of NewsIngestionService rethrows the failure of an
unreachable index and never converts it into a list; the claim fails for
the optimized server variant, which catches the failure and returns the
empty list. -/
theorem c3_unreachable_propagation (idx : VectorIndex) (e : IndexErr)
    (query : String) (limit : Nat)
    (hfail : ∀ f lim thr, idx.search f lim thr = Except.error e) :
    searchSimilar idx query limit = Except.error e ∧
    searchSimilarOpt idx query limit = [] := by
  have hh : searchSimilarHits idx query limit = Except.error e := by
    simp only [searchSimilarHits, hfail]
    split <;> rfl
  constructor
  · simp only [searchSimilar, hh]
  · simp only [searchSimilarOpt, hfail]

/-- C3 counterexample: on an unreachable index the optimized server
searchSimilar returns the empty list in place of the error. -/
theorem c3_counterexample :
    failIdx.search none 5 (some scoreThreshold) =
      Except.error IndexErr.unreachable ∧
    searchSimilarOpt failIdx ("latest headlines") 5 = [] :=
  ⟨rfl, rfl⟩

/-- C3 witness: the amended theorem applied to the unreachable index. -/
theorem c3_witness :
    (∀ f lim thr, failIdx.search f lim thr =
      Except.error IndexErr.unreachable) ∧
    searchSimilar failIdx ("news") 3 = Except.error IndexErr.unreachable := by
  have h := c3_unreachable_propagation failIdx IndexErr.unreachable ("news") 3
    (fun _ _ _ => rfl)
  exact ⟨fun _ _ _ => rfl, h.1⟩

theorem mockVec_length (rand : Nat → Rat) : (mockVec rand).length = 768 := by
  simp [mockVec]

theorem fallback_shape (rand : Nat → Nat → Rat) (n : Nat) :
    ((List.range n).map fun i => mockVec (rand i)).length = n ∧
    ∀ v ∈ (List.range n).map fun i => mockVec (rand i), v.length = 768 := by
  constructor
  · simp
  · intro v hv
    rcases List.mem_map.mp hv with ⟨i, _, rfl⟩
    exact mockVec_length _

theorem embedBatches_ok (provider : List String → Except EmbErr (List Vec))
    (hC : ∀ ts vs, provider ts = Except.ok vs →
      vs.length = ts.length ∧ ∀ v ∈ vs, v.length = 768) :
    ∀ (n : Nat) (texts : List String), texts.length ≤ n →
      ∀ vs, embedBatches provider texts = Except.ok vs →
        vs.length = texts.length ∧ ∀ v ∈ vs, v.length = 768 := by
  intro n
  induction n with
  | zero =>
    intro texts hlen vs h
    have hnil : texts = [] := List.length_eq_zero.mp (Nat.le_zero.mp hlen)
    subst hnil
    simp only [embedBatches] at h
    injection h with h
    subst h
    exact ⟨rfl, fun v hv => absurd hv (List.not_mem_nil v)⟩
  | succ n ih =>
    intro texts hlen vs h
    match texts with
    | [] =>
      simp only [embedBatches] at h
      injection h with h
      subst h
      exact ⟨rfl, fun v hv => absurd hv (List.not_mem_nil v)⟩
    | t :: ts =>
      simp only [embedBatches] at h
      cases hp : provider (t :: ts.take 9) with
      | error e =>
        simp only [hp] at h
        exact Except.noConfusion h
      | ok vs1 =>
        simp only [hp] at h
        cases hr : embedBatches provider (ts.drop 9) with
        | error e =>
          simp only [hr] at h
          exact Except.noConfusion h
        | ok rest =>
          simp only [hr] at h
          injection h with h
          subst h
          have h1 := hC _ _ hp
          have h2 := ih (ts.drop 9)
            (by simp only [List.length_drop]
                simp only [List.length_cons] at hlen
                omega) rest hr
          constructor
          · rw [List.length_append, h1.1, h2.1]
            simp only [List.length_cons, List.length_take, List.length_drop]
            omega
          · intro v hv
            rcases List.mem_append.mp hv with hv1 | hv2
            · exact h1.2 v hv1
            · exact h2.2 v hv2

/-- C4: the plain generateEmbeddings returns one vector per input text,
in input order, each of dimension 768 (given the provider contract); a
provider failure is absorbed — never propagated — and replaced by one
mock 768-vector per input text.  The batched optimized variant behaves
the same on every cache miss (in particular on any first call from the
empty cache); the cache-miss restriction is necessary, because the
texts-joined-by-three-pipes cache key is not injective and a colliding
cache hit replays a differently-shaped cached vector list. -/
theorem c4_embeddings_shape
    (provider : List String → Except EmbErr (List Vec))
    (rand : Nat → Nat → Rat) (texts : List String)
    (cache : List (String × List Vec))
    (hprov : ∀ ts vs, provider ts = Except.ok vs →
      vs.length = ts.length ∧ ∀ v ∈ vs, v.length = 768)
    (hmiss : cache.lookup (cacheKeyOf texts) = none) :
    ((generateEmbeddings provider rand texts).length = texts.length ∧
     ∀ v ∈ generateEmbeddings provider rand texts, v.length = 768) ∧
    (∀ vs, provider texts = Except.ok vs →
      generateEmbeddings provider rand texts = vs) ∧
    (∀ e, provider texts = Except.error e →
      generateEmbeddings provider rand texts =
        (List.range texts.length).map fun i => mockVec (rand i)) ∧
    ((generateEmbeddingsOpt provider rand cache texts).1.length =
        texts.length ∧
     ∀ v ∈ (generateEmbeddingsOpt provider rand cache texts).1,
       v.length = 768) := by
  refine ⟨?_, ?_, ?_, ?_⟩
  · unfold generateEmbeddings
    cases hp : provider texts with
    | ok vs => exact hprov _ _ hp
    | error e => exact fallback_shape rand texts.length
  · intro vs hp
    unfold generateEmbeddings
    rw [hp]
  · intro e hp
    unfold generateEmbeddings
    rw [hp]
  · unfold generateEmbeddingsOpt
    rw [hmiss]
    cases he : embedBatches provider texts with
    | ok embeddings =>
      simpa using embedBatches_ok provider hprov texts.length texts
        (Nat.le_refl _) embeddings he
    | error e => exact fallback_shape rand texts.length

theorem okProvider_contract : ∀ ts vs, okProvider ts = Except.ok vs →
    vs.length = ts.length ∧ ∀ v ∈ vs, v.length = 768 := by
  intro ts vs h
  injection h with h
  subst h
  constructor
  · simp
  · intro v hv
    rcases List.mem_map.mp hv with ⟨a, _, rfl⟩
    rw [zeroVec, List.length_replicate]

/-- C4 counterexample: the optimized embedding cache key join is not
injective: starting from the empty cache, embedding the two texts a and b
caches their two vectors under the key a|||b, and a subsequent call on
the single text a|||b is a cache hit that returns two vectors for a
one-element input — the count-preservation claim fails on this reachable
cache-hit state. -/
theorem c4_counterexample :
    (generateEmbeddingsOpt okProvider demoRand
      (generateEmbeddingsOpt okProvider demoRand [] ["a", "b"]).2
      ["a|||b"]).1.length = 2 ∧
    (["a|||b"] : List String).length = 1 := by
  have h1 : embedBatches okProvider ["a", "b"] =
      Except.ok [zeroVec, zeroVec] := by
    simp [embedBatches, okProvider]
  have h2 : (generateEmbeddingsOpt okProvider demoRand [] ["a", "b"]).2 =
      [(cacheKeyOf ["a", "b"], [zeroVec, zeroVec])] := by
    simp [generateEmbeddingsOpt, h1]
  rw [h2]
  exact ⟨rfl, rfl⟩

/-- C4 witness: the amended theorem applied to a healthy provider on two
texts with an empty cache, and to a failing provider on one text
(exercising the fallback). -/
theorem c4_witness :
    (∀ ts vs, okProvider ts = Except.ok vs →
      vs.length = ts.length ∧ ∀ v ∈ vs, v.length = 768) ∧
    ([] : List (String × List Vec)).lookup (cacheKeyOf ["a", "b"]) = none ∧
    (generateEmbeddings okProvider demoRand ["a", "b"]).length = 2 ∧
    (generateEmbeddingsOpt okProvider demoRand [] ["a", "b"]).1.length = 2 ∧
    (generateEmbeddings failProvider demoRand ["a"]).length = 1 := by
  have h := c4_embeddings_shape okProvider demoRand ["a", "b"] []
    okProvider_contract rfl
  have h2 := c4_embeddings_shape failProvider demoRand ["a"] []
    (fun _ _ hcon => Except.noConfusion hcon) rfl
  exact ⟨okProvider_contract, rfl, h.1.1, h.2.2.2.1, h2.1.1⟩

/-- C5: in the basic chat service a query retrieving zero passages (with
working persistence) yields the fixed no-matching-articles fallback with
an empty source list, and the answer is independent of the generation
provider, which is never consulted; the claim fails for the optimized
variant, which still invokes the provider — on a prompt built from the
fixed No-recent-news narrative — and returns the provider text. -/
theorem c5_empty_retrieval (history : List Msg)
    (gen : String → Except GenErr String)
    (addMsg : String → String → Except StoreErr Unit)
    (userMessage : String)
    (genAttempt : String → Nat → Except GenErr String)
    (persistUser persistBot : Except StoreErr Unit) (t : String)
    (hstore : ∀ role content, addMsg role content = Except.ok ())
    (hgen : generateResponseWithTimeout
      (genAttempt (buildOptimizedPrompt (buildOptimizedNewsContext [])
        (buildOptimizedHistory history) userMessage)) defaultMaxRetries =
      Except.ok t) :
    processQueryBasic [] history gen addMsg userMessage =
      Except.ok ⟨"bot", noMatchResponse, []⟩ ∧
    (∀ gen2 : String → Except GenErr String,
      processQueryBasic [] history gen2 addMsg userMessage =
        processQueryBasic [] history gen addMsg userMessage) ∧
    (processQueryOpt [] history genAttempt persistUser persistBot
      userMessage).1 = Except.ok ⟨"bot", t, []⟩ := by
  have hbasic : ∀ g : String → Except GenErr String,
      processQueryBasic [] history g addMsg userMessage =
        Except.ok ⟨"bot", noMatchResponse, []⟩ := by
    intro g
    simp [processQueryBasic, hstore]
  refine ⟨hbasic gen, fun gen2 => by rw [hbasic gen2, hbasic gen], ?_⟩
  simp [processQueryOpt, hgen, extractOptimizedSources]

/-- C5 counterexample: with zero retrieved passages the optimized chat
service still invokes the generation provider and returns the provider
text, not the fixed fallback. -/
theorem c5_counterexample :
    (processQueryOpt [] [] okGenAttempt (Except.ok ()) (Except.ok ())
      ("hi")).1 = Except.ok ⟨"bot", modelText, []⟩ ∧
    modelText ≠ noMatchResponse := by
  refine ⟨rfl, ?_⟩
  decide

/-- C5 witness: the amended theorem applied to concrete oracles. -/
theorem c5_witness :
    (∀ role content, okStore role content = Except.ok ()) ∧
    generateResponseWithTimeout (okGenAttempt (buildOptimizedPrompt
      (buildOptimizedNewsContext []) (buildOptimizedHistory [])
      ("anything new"))) defaultMaxRetries = Except.ok modelText ∧
    processQueryBasic [] [] okGen okStore ("anything new") =
      Except.ok ⟨"bot", noMatchResponse, []⟩ := by
  have h := c5_empty_retrieval [] okGen okStore ("anything new")
    okGenAttempt (Except.ok ()) (Except.ok ()) modelText
    (fun _ _ => rfl) rfl
  exact ⟨fun _ _ => rfl, rfl, h.1⟩

theorem attemptLoop_retry (attempt : Nat → Except GenErr String)
    (k remaining : Nat) (e : GenErr) (h : attempt k = Except.error e)
    (hr : remaining ≠ 0) :
    attemptLoop attempt k (remaining + 1) = attemptLoop attempt (k + 1)
      remaining := by
  simp [attemptLoop, h, hr]

theorem attemptLoop_last (attempt : Nat → Except GenErr String) (k : Nat)
    (e : GenErr) (h : attempt k = Except.error e) :
    attemptLoop attempt k 1 = Except.error (GenErr.failedAfterRetries e) := by
  simp [attemptLoop, h]

theorem attemptLoop_hit (attempt : Nat → Except GenErr String)
    (k remaining : Nat) (t : String) (h : attempt k = Except.ok t) :
    attemptLoop attempt k (remaining + 1) = Except.ok t := by
  simp [attemptLoop, h]

/-- C8: each generation attempt is raced against the fixed 10 s ceiling
(a lost race is a timed-out attempt), the retry budget is the fixed
default of 2 attempts with increasing backoff, a failed first attempt is
retried and a successful retry is returned, and when every attempt fails
processQuery fails with the generation-failure error — no partial answer
is returned. -/
theorem c8_timeout_retry (relevantNews : List RetrievalResult)
    (history : List Msg) (genAttempt : String → Nat → Except GenErr String)
    (persistUser persistBot : Except StoreErr Unit) (userMessage : String) :
    generationTimeoutMs = 10000 ∧ defaultMaxRetries = 2 ∧
    backoffDelayMs 1 = 1000 ∧ backoffDelayMs 2 = 2000 ∧
    (∀ attempt : Nat → Except GenErr String,
      (∀ i, 1 ≤ i → i ≤ 2 → ∃ e, attempt i = Except.error e) →
      ∃ e, generateResponseWithTimeout attempt defaultMaxRetries =
        Except.error (GenErr.failedAfterRetries e)) ∧
    (∀ attempt : Nat → Except GenErr String, ∀ e t,
      attempt 1 = Except.error e → attempt 2 = Except.ok t →
      generateResponseWithTimeout attempt defaultMaxRetries =
        Except.ok t) ∧
    ((∀ p i, ∃ e, genAttempt p i = Except.error e) →
      (processQueryOpt relevantNews history genAttempt persistUser
        persistBot userMessage).1 = Except.error PQErr.generationFailed) := by
  have hfailAll : ∀ attempt : Nat → Except GenErr String,
      (∀ i, 1 ≤ i → i ≤ 2 → ∃ e, attempt i = Except.error e) →
      ∃ e, generateResponseWithTimeout attempt defaultMaxRetries =
        Except.error (GenErr.failedAfterRetries e) := by
    intro attempt hfail
    obtain ⟨e1, he1⟩ := hfail 1 (by omega) (by omega)
    obtain ⟨e2, he2⟩ := hfail 2 (by omega) (by omega)
    refine ⟨e2, ?_⟩
    show attemptLoop attempt 1 2 = _
    rw [show (2 : Nat) = 1 + 1 from rfl,
      attemptLoop_retry attempt 1 1 e1 he1 one_ne_zero,
      attemptLoop_last attempt 2 e2 he2]
  refine ⟨rfl, rfl, rfl, rfl, hfailAll, ?_, ?_⟩
  · intro attempt e t h1 h2
    show attemptLoop attempt 1 2 = _
    rw [show (2 : Nat) = 1 + 1 from rfl,
      attemptLoop_retry attempt 1 1 e h1 one_ne_zero,
      show (1 : Nat) = 0 + 1 from rfl,
      attemptLoop_hit attempt 2 0 t h2]
  · intro hfail
    obtain ⟨e, he⟩ := hfailAll
      (genAttempt (buildOptimizedPrompt
        (buildOptimizedNewsContext relevantNews)
        (buildOptimizedHistory history) userMessage))
      (fun i _ _ => hfail _ i)
    simp [processQueryOpt, he]

/-- C8 witness: the theorem applied to a generation oracle whose every
attempt times out. -/
theorem c8_witness :
    (∀ p i, ∃ e, failGenAttempt p i = Except.error e) ∧
    (processQueryOpt [] [] failGenAttempt (Except.ok ()) (Except.ok ())
      ("hi")).1 = Except.error PQErr.generationFailed := by
  have h := c8_timeout_retry [] [] failGenAttempt (Except.ok ())
    (Except.ok ()) ("hi")
  exact ⟨fun p i => ⟨GenErr.timeout, rfl⟩,
    h.2.2.2.2.2.2 (fun p i => ⟨GenErr.timeout, rfl⟩)⟩

/-- C9: in the optimized chat service, once generation has succeeded the
two message-persistence calls are non-blocking and any failure among them
is merely logged — the successful response is returned for every
persistence outcome; the claim fails for the basic variant, where a
persistence failure after successful generation makes processQuery fail
(reported as a generation failure). -/
theorem c9_persistence_swallowed (relevantNews : List RetrievalResult)
    (history : List Msg) (genAttempt : String → Nat → Except GenErr String)
    (userMessage t : String)
    (hgen : generateResponseWithTimeout (genAttempt (buildOptimizedPrompt
      (buildOptimizedNewsContext relevantNews)
      (buildOptimizedHistory history) userMessage)) defaultMaxRetries =
      Except.ok t) :
    (∀ persistUser persistBot,
      (processQueryOpt relevantNews history genAttempt persistUser
        persistBot userMessage).1 =
      Except.ok ⟨"bot", t, extractOptimizedSources relevantNews⟩) ∧
    (∀ e, storeMessagesAsync (Except.error e) (Except.ok ()) = some e) ∧
    (∀ (gen : String → Except GenErr String)
      (addMsg : String → String → Except StoreErr Unit) (resp : String)
      (e : StoreErr),
      relevantNews.length ≠ 0 →
      gen (promptBasic relevantNews history userMessage) = Except.ok resp →
      addMsg ("user") userMessage = Except.error e →
      processQueryBasic relevantNews history gen addMsg userMessage =
        Except.error PQErr.generationFailed) := by
  refine ⟨?_, fun e => rfl, ?_⟩
  · intro persistUser persistBot
    simp [processQueryOpt, hgen]
  · intro gen addMsg resp e hne hg ha
    simp [processQueryBasic, hne, hg, ha]

/-- C9 counterexample: in the basic chat service a persistence failure
after successful generation surfaces to the caller as an error instead of
the already-generated answer. -/
theorem c9_counterexample :
    okGen (promptBasic [Hit.toResult hitS] [] ("nba")) =
      Except.ok modelText ∧
    processQueryBasic [Hit.toResult hitS] [] okGen failStore ("nba") =
      Except.error PQErr.generationFailed := ⟨rfl, rfl⟩

/-- C9 witness: the optimized-variant part of the theorem applied with a
failing user-message persistence. -/
theorem c9_witness :
    generateResponseWithTimeout (okGenAttempt (buildOptimizedPrompt
      (buildOptimizedNewsContext []) (buildOptimizedHistory [])
      ("hello"))) defaultMaxRetries = Except.ok modelText ∧
    (processQueryOpt [] [] okGenAttempt
      (Except.error StoreErr.unavailable) (Except.ok ()) ("hello")).1 =
      Except.ok ⟨"bot", modelText, []⟩ := by
  have h := c9_persistence_swallowed [] [] okGenAttempt ("hello")
    modelText rfl
  refine ⟨rfl, ?_⟩
  have h2 := h.1 (Except.error StoreErr.unavailable) (Except.ok ())
  simpa [extractOptimizedSources] using h2

theorem lRange_nil (start stop : Int) : lRange [] start stop = [] := by
  unfold lRange
  split_ifs <;> simp

theorem lRange_take (l : List Msg) (limit : Int) (h : 1 ≤ limit) :
    lRange l 0 (limit - 1) = l.take limit.toNat := by
  unfold lRange
  have h0 : ¬ ((0 : Int) < 0) := by omega
  have h1 : ¬ (limit - 1 < 0) := by omega
  simp only [h0, if_false, h1, max_self, Int.toNat_zero, List.drop_zero]
  by_cases hc : (0 : Int) ≤ min (limit - 1) ((l.length : Int) - 1)
  · rw [if_pos hc]
    have key : (min (limit - 1) ((l.length : Int) - 1) - 0 + 1).toNat =
        min limit.toNat l.length := by
      omega
    rw [key]
    have h3 := List.take_take limit.toNat l.length l
    rw [List.take_length] at h3
    exact h3.symm
  · rw [if_neg hc]
    have hlen : l.length = 0 := by omega
    have hnil : l = [] := List.length_eq_zero.mp hlen
    subst hnil
    simp

/-- C6: getSessionHistory reads the first limit entries of the
newest-first stored list and reverses them, so it returns the
min(limit, stored) most recent messages in chronological oldest-first
order — the length-limit suffix of the chronological log. -/
theorem c6_history_order (st : Store) (sid : String) (limit : Int)
    (hpos : 1 ≤ limit) :
    getSessionHistory st sid limit =
      ((st.messages sid).take limit.toNat).reverse ∧
    (getSessionHistory st sid limit).length =
      min limit.toNat (st.messages sid).length ∧
    (∀ chron : List Msg, st.messages sid = chron.reverse →
      getSessionHistory st sid limit =
        chron.drop (chron.length - limit.toNat)) := by
  have h1 : getSessionHistory st sid limit =
      ((st.messages sid).take limit.toNat).reverse := by
    unfold getSessionHistory
    rw [lRange_take _ _ hpos]
  refine ⟨h1, ?_, ?_⟩
  · rw [h1, List.length_reverse, List.length_take]
  · intro chron hc
    rw [h1, hc, List.reverse_take, List.length_reverse,
      List.reverse_reverse]

/-- C6 witness: the theorem applied to the demo store, whose session
holds a user message followed by a bot message. -/
theorem c6_witness :
    (1 : Int) ≤ 2 ∧
    getSessionHistory demoStore ("s1") 2 =
      ((demoStore.messages ("s1")).take 2).reverse ∧
    (getSessionHistory demoStore ("s1") 2).length = 2 := by
  have h := c6_history_order demoStore ("s1") 2 (by omega)
  refine ⟨by omega, h.1, ?_⟩
  rw [h.2.1]
  rfl

/-- C7: resetSession on an existing session clears the message log and
zeroes the counter while leaving everything else unchanged: afterwards
history is empty for every limit, the session still exists, its
created_at and its own TTL are preserved, and all other sessions are
untouched. -/
theorem c7_reset_frame (st : Store) (sid : String) (meta : SessionMeta)
    (hex : st.sessions sid = some meta) :
    (resetSession st sid).1 = true ∧
    (∀ limit : Int,
      getSessionHistory (resetSession st sid).2 sid limit = []) ∧
    sessionExists (resetSession st sid).2 sid = true ∧
    (resetSession st sid).2.sessions sid = some ⟨meta.created_at, 0⟩ ∧
    (resetSession st sid).2.sessionTTL sid = st.sessionTTL sid ∧
    (∀ k, k ≠ sid →
      (resetSession st sid).2.sessions k = st.sessions k ∧
      (resetSession st sid).2.messages k = st.messages k ∧
      (resetSession st sid).2.sessionTTL k = st.sessionTTL k ∧
      (resetSession st sid).2.messagesTTL k = st.messagesTTL k) := by
  refine ⟨rfl, ?_, ?_, ?_, rfl, ?_⟩
  · intro limit
    simp [getSessionHistory, resetSession, lRange_nil]
  · simp [sessionExists, resetSession, hex]
  · simp [resetSession, hex]
  · intro k hk
    simp [resetSession, hk]

/-- C7 witness: the theorem applied to the demo store session. -/
theorem c7_witness :
    demoStore.sessions ("s1") = some ⟨some demoT0, 2⟩ ∧
    getSessionHistory (resetSession demoStore ("s1")).2 ("s1") 10 = [] ∧
    sessionExists (resetSession demoStore ("s1")).2 ("s1") = true ∧
    (resetSession demoStore ("s1")).2.sessionTTL ("s1") =
      demoStore.sessionTTL ("s1") := by
  have h := c7_reset_frame demoStore ("s1") ⟨some demoT0, 2⟩ rfl
  exact ⟨rfl, h.2.1 10, h.2.2.1, h.2.2.2.2.1⟩

theorem jsSubstring_length (s : String) (n : Nat) :
    (jsSubstring s n).length = min n s.length := by
  show (s.data.take n).length = min n s.data.length
  exact List.length_take n s.data

theorem jsSubstring_of_le (s : String) (n : Nat) (h : s.length ≤ n) :
    jsSubstring s n = s := by
  cases s with
  | mk data =>
    show (⟨data.take n⟩ : String) = ⟨data⟩
    exact congrArg String.mk (List.take_of_length_le h)

/-- C10: the optimized addMessage stores and returns the message content
truncated to its first 2000 characters — content of length at most 2000
verbatim, longer content silently cut — so a round trip through
addMessage and getSessionHistory does not preserve content longer than
2000 characters. -/
theorem c10_truncation (st : Store) (sid : String) (mid : Nat)
    (role content now : String) :
    (addMessage st sid mid role content now).1.content =
      jsSubstring content 2000 ∧
    (content.length ≤ 2000 →
      (addMessage st sid mid role content now).1.content = content) ∧
    getSessionHistory (addMessage st sid mid role content now).2 sid 1 =
      [⟨mid, role, jsSubstring content 2000, now⟩] ∧
    (2000 < content.length →
      (addMessage st sid mid role content now).1.content ≠ content ∧
      getSessionHistory (addMessage st sid mid role content now).2 sid 1 ≠
        [⟨mid, role, content, now⟩]) := by
  have htrunc : 2000 < content.length →
      jsSubstring content 2000 ≠ content := by
    intro hlong heq
    have := congrArg String.length heq
    rw [jsSubstring_length] at this
    omega
  have hhist : getSessionHistory
      (addMessage st sid mid role content now).2 sid 1 =
      [⟨mid, role, jsSubstring content 2000, now⟩] := by
    unfold getSessionHistory
    rw [lRange_take _ _ (by omega)]
    simp [addMessage]
  refine ⟨rfl, fun hle => jsSubstring_of_le content 2000 hle, hhist, ?_⟩
  intro hlong
  refine ⟨htrunc hlong, ?_⟩
  rw [hhist]
  intro heq
  have := List.head_eq_of_cons_eq heq
  have h2 : jsSubstring content 2000 = content := congrArg Msg.content this
  exact htrunc hlong h2

/-- C10 witness: the theorem applied to a 2001-character message. -/
theorem c10_witness :
    2000 < longContent.length ∧
    (addMessage demoStore ("s1") 12 ("user") longContent demoT0).1.content ≠
      longContent := by
  have hlen : 2000 < longContent.length := by
    show 2000 < (List.replicate 2001 (Char.ofNat 97)).length
    rw [List.length_replicate]
    omega
  exact ⟨hlen,
    ((c10_truncation demoStore ("s1") 12 ("user") longContent
      demoT0).2.2.2 hlen).1⟩

end NewsBot
